import Mathlib

/-!
A shallow embedding of the Mini E-Commerce API (src/app/main.py) together with
the parts of its crud/auth layer that the endpoints call.  The endpoint
functions are translated directly from `src/app/main.py`; the crud and auth
modules are not part of the repository's source tree, so each of their
functions is modelled from the specification (its doc comment says so).

State is a `DB` record of tables; every mutating endpoint returns its HTTP
outcome together with the database state after the request (an
`HTTPException` raised after a committed crud call leaves that commit in
place, as the real session does).
-/

namespace ECom

/-- User row: id, unique email, hashed password, role string. -/
structure User where
  id : Nat
  email : String
  password : String
  role : String
deriving DecidableEq, Repr

/-- Product row: price/stock are integers, seller_id optional. -/
structure Product where
  id : Nat
  name : String
  price : Int
  stock : Int
  category_id : Nat
  seller_id : Option Nat
deriving DecidableEq, Repr

/-- Cart row: one per user, created lazily. -/
structure Cart where
  id : Nat
  user_id : Nat
deriving DecidableEq, Repr

/-- Cart line item. -/
structure CartItem where
  id : Nat
  cart_id : Nat
  product_id : Nat
  quantity : Int
deriving DecidableEq, Repr

/-- Order row. -/
structure Order where
  id : Nat
  user_id : Nat
deriving DecidableEq, Repr

/-- Order line-item snapshot (product, quantity, unit price at purchase). -/
structure OrderItem where
  id : Nat
  order_id : Nat
  product_id : Nat
  quantity : Int
  unit_price : Int
deriving DecidableEq, Repr

/-- The relational store: one list per table plus an autoincrement counter. -/
structure DB where
  users : List User
  products : List Product
  carts : List Cart
  cartItems : List CartItem
  orders : List Order
  orderItems : List OrderItem
  nextId : Nat
deriving DecidableEq, Repr

/-- `fastapi.HTTPException`: status code and detail message. -/
structure HTTPException where
  status_code : Nat
  detail : String
deriving DecidableEq, Repr

/-- Decoded access-token payload: exactly the claims `login` embeds. -/
structure TokenPayload where
  user_id : Nat
  email : String
  role : String
  exp : Nat
deriving DecidableEq, Repr

/-- The `/login` response: the (modelled) signed token and its type. -/
structure Token where
  access_token : TokenPayload
  token_type : String
deriving DecidableEq, Repr

/-- `p.lower()` for the ASCII messages the endpoints match on. -/
def toLowerStr (s : String) : String :=
  String.mk (s.data.map Char.toLower)

/-- Does `pat` occur at the head of `hay`? -/
def matchHere : List Char → List Char → Bool
  | [], _ => true
  | _ :: _, [] => false
  | p :: ps, h :: hs => p == h && matchHere ps hs

/-- Does `pat` occur anywhere in `hay`?  (Python's `pat in hay`.) -/
def hasSub (pat : List Char) : List Char → Bool
  | [] => matchHere pat []
  | h :: t => matchHere pat (h :: t) || hasSub pat t

/-- Python's `pat in hay` on strings. -/
def containsStr (hay pat : String) : Bool :=
  hasSub pat.data hay.data

namespace Crud

/-- `schemas.UserCreate`: signup request body. -/
structure UserCreate where
  email : String
  password : String
deriving DecidableEq, Repr

/-- `schemas.UserUpdate` as used by the admin role-change endpoint. -/
structure UserUpdate where
  role : String
deriving DecidableEq, Repr

/-- `schemas.CartItemBase`: add-to-cart request body. -/
structure CartItemBase where
  product_id : Nat
  quantity : Int
deriving DecidableEq, Repr

/-- `schemas.ProductBase`: product create/update request body. -/
structure ProductBase where
  name : String
  price : Int
  stock : Int
  category_id : Nat
deriving DecidableEq, Repr

/-- Modelled from the spec: password hashing is out of scope (spec section 1);
`app.crud`'s hash function is absent from src/, modelled as an injective
tagging so that verification is executable. -/
def get_password_hash (p : String) : String :=
  "$2b$" ++ p

/-- Modelled from the spec: `crud.verify_password` is absent from src/;
checks a plaintext password against the stored hash. -/
def verify_password (plain hashed : String) : Bool :=
  get_password_hash plain == hashed

/-- Modelled from the spec: `crud.get_user_by_email` is absent from src/;
email is the unique lookup key (spec section 3). -/
def get_user_by_email (db : DB) (email : String) : Option User :=
  db.users.find? (fun u => u.email == email)

/-- Modelled from the spec: `crud.get_user` is absent from src/; lookup by id. -/
def get_user (db : DB) (user_id : Nat) : Option User :=
  db.users.find? (fun u => u.id == user_id)

/-- Modelled from the spec: `crud.Signup` is absent from src/; spec section 4.1:
stores the hashed password and returns the created user.  New accounts get the
customer role (spec section 3 role set). -/
def Signup (db : DB) (user : UserCreate) : User × DB :=
  let u : User := ⟨db.nextId, user.email, get_password_hash user.password, "customer"⟩
  (u, { db with users := db.users ++ [u], nextId := db.nextId + 1 })

/-- Modelled from the spec: `auth.create_access_token` is absent from src/;
spec section 6: the token payload is the data passed in plus the expiry,
`now + expires_delta` (time measured in minutes). -/
def create_access_token (user_id : Nat) (email role : String) (now expires_delta : Nat) :
    TokenPayload :=
  ⟨user_id, email, role, now + expires_delta⟩

/-- Modelled from the spec: `crud.update_user` is absent from src/; applies the
update to the user's row. -/
def update_user (db : DB) (user : User) (update : UserUpdate) : User × DB :=
  let u' : User := { user with role := update.role }
  (u', { db with users := db.users.map (fun x => if x.id == user.id then u' else x) })

/-- Modelled from the spec: `crud.get_products_by_category` is absent from
src/; the catalog listing filtered by category id. -/
def get_products_by_category (db : DB) (category_id : Nat) : List Product :=
  db.products.filter (fun p => p.category_id == category_id)

/-- Modelled from the spec: `crud.get_cart` is absent from src/; the user's
cart, if one exists (one-to-one with the user, spec section 3). -/
def get_cart (db : DB) (user_id : Nat) : Option Cart :=
  db.carts.find? (fun c => c.user_id == user_id)

/-- Modelled from the spec: `crud.create_cart` is absent from src/; creates an
empty cart for the user. -/
def create_cart (db : DB) (user_id : Nat) : Cart × DB :=
  let c : Cart := ⟨db.nextId, user_id⟩
  (c, { db with carts := db.carts ++ [c], nextId := db.nextId + 1 })

/-- Modelled from the spec: `crud.add_cart_item` is absent from src/; spec
section 4.3 `add_item`: NotFound if the product is missing, InvalidInput if
quantity ≤ 0, InsufficientStock if the quantity exceeds available stock; an
existing item for the product has its quantity incremented (re-validated
against stock) rather than duplicated.  Failures are `ValueError` messages. -/
def add_cart_item (db : DB) (cart_id : Nat) (item : CartItemBase) :
    Except String (CartItem × DB) :=
  match db.products.find? (fun p => p.id == item.product_id) with
  | none => Except.error "Product not found"
  | some p =>
    if item.quantity ≤ 0 then Except.error "Quantity must be positive"
    else
      match db.cartItems.find?
          (fun ci => ci.cart_id == cart_id && ci.product_id == item.product_id) with
      | some ci =>
        let newQty := ci.quantity + item.quantity
        if p.stock < newQty then Except.error "Insufficient stock"
        else
          let ci' : CartItem := { ci with quantity := newQty }
          Except.ok (ci',
            { db with cartItems := db.cartItems.map (fun x => if x.id == ci.id then ci' else x) })
      | none =>
        if p.stock < item.quantity then Except.error "Insufficient stock"
        else
          let ci : CartItem := ⟨db.nextId, cart_id, item.product_id, item.quantity⟩
          Except.ok (ci,
            { db with cartItems := db.cartItems ++ [ci], nextId := db.nextId + 1 })

/-- Modelled from the spec: `crud.update_cart_item` is absent from src/; spec
section 4.3 `update_item_quantity`: NotFound (`none`) if the item is missing,
re-validates the quantity against current stock (a failed validation also
yields `none`, which the endpoint reports as NotFound); otherwise commits the
new quantity. -/
def update_cart_item (db : DB) (cart_item_id : Nat) (quantity : Int) :
    Option (CartItem × DB) :=
  match db.cartItems.find? (fun ci => ci.id == cart_item_id) with
  | none => none
  | some ci =>
    match db.products.find? (fun p => p.id == ci.product_id) with
    | none => none
    | some p =>
      if quantity ≤ 0 || p.stock < quantity then none
      else
        let ci' : CartItem := { ci with quantity := quantity }
        some (ci',
          { db with cartItems :=
              db.cartItems.map (fun x => if x.id == cart_item_id then ci' else x) })

/-- Modelled from the spec: `crud.remove_cart_item` is absent from src/; spec
section 4.3 `remove_item`: deletes the row, NotFound (`none`) if absent. -/
def remove_cart_item (db : DB) (cart_item_id : Nat) : Option DB :=
  if db.cartItems.any (fun ci => ci.id == cart_item_id) then
    some { db with cartItems := db.cartItems.filter (fun ci => ci.id != cart_item_id) }
  else none

/-- Stock re-validation pass of spec section 4.4 step 3, for
`create_order_from_cart_for_user`. -/
def checkStock (db : DB) : List CartItem → Except String Unit
  | [] => Except.ok ()
  | ci :: rest =>
    match db.products.find? (fun p => p.id == ci.product_id) with
    | none => Except.error "Product not found"
    | some p =>
      if p.stock < ci.quantity then
        Except.error ("Insufficient stock for product " ++ toString p.id)
      else checkStock db rest

/-- Modelled from the spec: `crud.create_order_from_cart_for_user` is absent
from src/; spec section 4.4: load the cart (NotFound if none), EmptyCart if it
has no items, re-validate stock per item, then atomically create the order and
its snapshot items, decrement each product's stock, and clear the cart's
items.  Failures are `ValueError` messages and leave the state untouched. -/
def create_order_from_cart_for_user (db : DB) (user_id : Nat) :
    Except String (Order × DB) :=
  match get_cart db user_id with
  | none => Except.error "Cart not found"
  | some cart =>
    let items := db.cartItems.filter (fun ci => ci.cart_id == cart.id)
    if items.isEmpty then Except.error "Cart is empty"
    else
      match checkStock db items with
      | Except.error e => Except.error e
      | Except.ok _ =>
        let order : Order := ⟨db.nextId, user_id⟩
        let priceOf := fun pid =>
          ((db.products.find? (fun p => p.id == pid)).map Product.price).getD 0
        let oitems := items.enum.map (fun pr =>
          (⟨db.nextId + 1 + pr.1, order.id, pr.2.product_id, pr.2.quantity,
            priceOf pr.2.product_id⟩ : OrderItem))
        let products' := db.products.map (fun p =>
          match items.find? (fun ci => ci.product_id == p.id) with
          | some ci => { p with stock := p.stock - ci.quantity }
          | none => p)
        Except.ok (order,
          { db with
            orders := db.orders ++ [order],
            orderItems := db.orderItems ++ oitems,
            products := products',
            cartItems := db.cartItems.filter (fun ci => ci.cart_id != cart.id),
            nextId := db.nextId + 1 + items.length })

/-- Modelled from the spec: `crud.update_product` is absent from src/; spec
section 4.6: mutation is scoped to the owning seller_id; a `none` seller_id
argument (the admin caller in `seller_update_product`) bypasses the ownership
check; `none` when the product is missing or the requester is not the owner. -/
def update_product (db : DB) (product_id : Nat) (update : ProductBase)
    (seller_id : Option Nat) : Option (Product × DB) :=
  match db.products.find? (fun p => p.id == product_id) with
  | none => none
  | some p =>
    let authorized : Bool :=
      match seller_id with
      | some sid => p.seller_id == some sid
      | none => true
    if authorized then
      let p' : Product := { p with
        name := update.name, price := update.price,
        stock := update.stock, category_id := update.category_id }
      some (p', { db with products := db.products.map (fun x => if x.id == product_id then p' else x) })
    else none

/-- Modelled from the spec: `crud.delete_product` is absent from src/; spec
section 4.6: admin bypasses the ownership check, otherwise only the owning
seller may delete; `none` when the product is missing or the requester is not
authorized. -/
def delete_product (db : DB) (product_id : Nat) (user_id : Nat) (user_role : String) :
    Option DB :=
  match db.products.find? (fun p => p.id == product_id) with
  | none => none
  | some p =>
    if user_role == "admin" || p.seller_id == some user_id then
      some { db with products := db.products.filter (fun x => x.id != product_id) }
    else none

end Crud

namespace Api

/-- `signup` (src/app/main.py lines 42-45): rejects an already-registered
email, otherwise creates the user. -/
def signup (db : DB) (user : Crud.UserCreate) : Except HTTPException User × DB :=
  match Crud.get_user_by_email db user.email with
  | some _ => (Except.error ⟨400, "Email already registered"⟩, db)
  | none =>
    let r := Crud.Signup db user
    (Except.ok r.1, r.2)

/-- `login` (src/app/main.py lines 49-63): one 401 for unknown email or
password mismatch; on success a bearer token with a 60-minute expiry
(time measured in minutes, `now` the issuance instant). -/
def login (db : DB) (username password : String) (now : Nat) :
    Except HTTPException Token :=
  match Crud.get_user_by_email db username with
  | none => Except.error ⟨401, "Incorrect email or password"⟩
  | some user =>
    if Crud.verify_password password user.password then
      Except.ok ⟨Crud.create_access_token user.id user.email user.role now 60, "bearer"⟩
    else Except.error ⟨401, "Incorrect email or password"⟩

/-- `list_products_by_category` (src/app/main.py lines 82-86): 404 when the
filtered list is empty. -/
def list_products_by_category (db : DB) (category_id : Nat) :
    Except HTTPException (List Product) :=
  let products := Crud.get_products_by_category db category_id
  if products.isEmpty then
    Except.error ⟨404, "No products found for this category"⟩
  else Except.ok products

/-- `get_cart` (src/app/main.py lines 188-192): returns the user's cart,
creating an empty one on first access. -/
def get_cart (current_user : User) (db : DB) : Cart × DB :=
  match Crud.get_cart db current_user.id with
  | some cart => (cart, db)
  | none => Crud.create_cart db current_user.id

/-- The `ValueError` → `HTTPException` mapping of `add_item_to_cart`
(src/app/main.py lines 201-207): message text matched lowercase. -/
def classifyCartError (msg : String) : HTTPException :=
  let m := toLowerStr msg
  if containsStr m "not found" then ⟨404, msg⟩
  else if containsStr m "insufficient" then ⟨400, msg⟩
  else ⟨400, msg⟩

/-- `add_item_to_cart` (src/app/main.py lines 195-207): get-or-create the
cart, then delegate to `crud.add_cart_item`, mapping its errors. -/
def add_item_to_cart (current_user : User) (db : DB) (item : Crud.CartItemBase) :
    Except HTTPException CartItem × DB :=
  let r :=
    match Crud.get_cart db current_user.id with
    | some c => (c, db)
    | none => Crud.create_cart db current_user.id
  match Crud.add_cart_item r.2 r.1.id item with
  | Except.ok out => (Except.ok out.1, out.2)
  | Except.error e => (Except.error (classifyCartError e), r.2)

/-- `update_cart_item` (src/app/main.py lines 210-216), translated with its
actual ordering: the crud update runs (and commits) before the ownership
check, so a 403 response leaves the already-committed update in place.  A
dangling `item.cart` would be a Python attribute error, modelled as a 500. -/
def update_cart_item (current_user : User) (db : DB) (cart_item_id : Nat)
    (quantity : Int) : Except HTTPException CartItem × DB :=
  match Crud.update_cart_item db cart_item_id quantity with
  | none => (Except.error ⟨404, "Cart item not found"⟩, db)
  | some r =>
    match r.2.carts.find? (fun c => c.id == r.1.cart_id) with
    | none => (Except.error ⟨500, "Internal Server Error"⟩, r.2)
    | some cart =>
      if cart.user_id != current_user.id && current_user.role != "admin" then
        (Except.error ⟨403, "Not allowed to modify this item"⟩, r.2)
      else (Except.ok r.1, r.2)

/-- `delete_cart_item` (src/app/main.py lines 219-234): item and cart are
looked up and ownership is checked before anything is deleted. -/
def delete_cart_item (current_user : User) (db : DB) (cart_item_id : Nat) :
    Except HTTPException String × DB :=
  match db.cartItems.find? (fun ci => ci.id == cart_item_id) with
  | none => (Except.error ⟨404, "Cart item not found"⟩, db)
  | some item =>
    match db.carts.find? (fun c => c.id == item.cart_id) with
    | none => (Except.error ⟨404, "Cart not found"⟩, db)
    | some cart =>
      if cart.user_id != current_user.id && current_user.role != "admin" then
        (Except.error ⟨403, "Not allowed to delete this item"⟩, db)
      else
        match Crud.remove_cart_item db cart_item_id with
        | none => (Except.error ⟨404, "Cart item not found"⟩, db)
        | some db' => (Except.ok "Cart Item Deleted Successfully", db')

/-- The `ValueError` → `HTTPException` mapping of `create_order_from_cart`
(src/app/main.py lines 246-254). -/
def classifyOrderError (msg : String) : HTTPException :=
  let m := toLowerStr msg
  if containsStr m "not found" then ⟨404, msg⟩
  else if containsStr m "empty" then ⟨400, msg⟩
  else ⟨400, msg⟩

/-- `create_order_from_cart` (src/app/main.py lines 240-254). -/
def create_order_from_cart (current_user : User) (db : DB) :
    Except HTTPException Order × DB :=
  match Crud.create_order_from_cart_for_user db current_user.id with
  | Except.ok out => (Except.ok out.1, out.2)
  | Except.error e => (Except.error (classifyOrderError e), db)

/-- `seller_update_product` (src/app/main.py lines 327-343): a seller caller
passes their own id as the ownership scope, any other (admin) caller passes
`None`; a falsy crud result becomes the collapsed 404. -/
def seller_update_product (seller : User) (db : DB) (product_id : Nat)
    (product_update : Crud.ProductBase) : Except HTTPException Product × DB :=
  match Crud.update_product db product_id product_update
      (if seller.role == "seller" then some seller.id else none) with
  | none => (Except.error ⟨404, "Product not found or not authorized"⟩, db)
  | some r => (Except.ok r.1, r.2)

/-- `seller_delete_product` (src/app/main.py lines 349-361). -/
def seller_delete_product (seller : User) (db : DB) (product_id : Nat) :
    Except HTTPException String × DB :=
  match Crud.delete_product db product_id seller.id seller.role with
  | none => (Except.error ⟨404, "Product not found or not authorized"⟩, db)
  | some db' => (Except.ok "Product deleted successfully", db')

/-- `admin_update_user_role` (src/app/main.py lines 386-397): 404 for a
missing user, 400 "Invalid role" unless the requested role is one of
customer/seller/admin, otherwise applies the update. -/
def admin_update_user_role (db : DB) (user_id : Nat) (update : Crud.UserUpdate) :
    Except HTTPException User × DB :=
  match Crud.get_user db user_id with
  | none => (Except.error ⟨404, "User not found"⟩, db)
  | some db_user =>
    if update.role ∉ (["customer", "seller", "admin"] : List String) then
      (Except.error ⟨400, "Invalid role"⟩, db)
    else
      let r := Crud.update_user db db_user update
      (Except.ok r.1, r.2)

end Api

end ECom

namespace ECom

deriving instance DecidableEq for Except

/-! ### Concrete fixtures used by witnesses and concrete evaluations -/

/-- Fixture: customer who owns the example cart. -/
def exUserA : User := ⟨1, "a@x", Crud.get_password_hash "pa", "customer"⟩

/-- Fixture: a second customer, not the cart owner. -/
def exUserB : User := ⟨2, "b@x", Crud.get_password_hash "pb", "customer"⟩

/-- Fixture: an admin user. -/
def exAdmin : User := ⟨3, "d@x", Crud.get_password_hash "pd", "admin"⟩

/-- Fixture: the seller owning the example product. -/
def exSeller : User := ⟨4, "s@x", Crud.get_password_hash "ps", "seller"⟩

/-- Fixture: product with stock 5, category 7, owned by seller 4. -/
def exProduct : Product := ⟨30, "widget", 100, 5, 7, some 4⟩

/-- Fixture: user A's cart. -/
def exCart : Cart := ⟨10, 1⟩

/-- Fixture: cart item of user A's cart, quantity 1 of product 30. -/
def exItem : CartItem := ⟨20, 10, 30, 1⟩

/-- Fixture database tying the rows above together. -/
def exDB : DB :=
  ⟨[exUserA, exUserB, exAdmin, exSeller], [exProduct], [exCart], [exItem], [], [], 50⟩

/-! ### C1 -/

/-- C1: the claim fails on the code.  For cart item 20 owned by user A (id 1),
requester user B (id 2, role customer, neither owner nor admin) updating the
quantity to 5 does receive Forbidden (403), but the update has already been
committed: the item's quantity after the request is 5, not the original 1.
(The code runs `crud.update_cart_item` before the ownership check,
src/app/main.py lines 210-216.)  The delete path checks ownership first and
leaves the state unchanged, as the claim says. -/
theorem update_cart_item_forbidden_yet_committed :
    (Api.update_cart_item exUserB exDB 20 5).1 =
      Except.error ⟨403, "Not allowed to modify this item"⟩ ∧
    ((Api.update_cart_item exUserB exDB 20 5).2.cartItems.find?
        (fun ci => ci.id == 20)).map CartItem.quantity = some 5 ∧
    ((exDB.cartItems.find? (fun ci => ci.id == 20)).map CartItem.quantity = some 1) ∧
    (Api.delete_cart_item exUserB exDB 20).1 =
      Except.error ⟨403, "Not allowed to delete this item"⟩ ∧
    (Api.delete_cart_item exUserB exDB 20).2 = exDB := by
  decide

/-! ### C2 -/

/-- C2: a signup whose email is already registered always fails with the
duplicate-email Conflict rejection (HTTP 400, "Email already registered") and
the whole database — the user table in particular — is unchanged. -/
theorem signup_duplicate_email_conflict (db : DB) (uc : Crud.UserCreate) (u : User)
    (h : Crud.get_user_by_email db uc.email = some u) :
    (Api.signup db uc).1 = Except.error ⟨400, "Email already registered"⟩ ∧
    (Api.signup db uc).2 = db := by
  unfold Api.signup
  rw [h]
  exact ⟨rfl, rfl⟩

/-- C2 witness: signing up again with user A's email is rejected and the
fixture database is unchanged. -/
theorem signup_duplicate_email_conflict_witness :
    (Api.signup exDB ⟨"a@x", "zz"⟩).1 = Except.error ⟨400, "Email already registered"⟩ ∧
    (Api.signup exDB ⟨"a@x", "zz"⟩).2 = exDB :=
  signup_duplicate_email_conflict exDB ⟨"a@x", "zz"⟩ exUserA (by decide)

/-! ### C3 -/

/-- C3: a login whose email is unknown, or whose password does not verify
against the stored hash, yields the one Unauthorized outcome
(401, "Incorrect email or password") — the same in both cases. -/
theorem login_unknown_or_mismatch_unauthorized (db : DB) (email pw : String) (now : Nat)
    (h : Crud.get_user_by_email db email = none ∨
      ∃ u, Crud.get_user_by_email db email = some u ∧
        Crud.verify_password pw u.password = false) :
    Api.login db email pw now = Except.error ⟨401, "Incorrect email or password"⟩ := by
  rcases h with h | ⟨u, hu, hv⟩
  · simp [Api.login, h]
  · simp [Api.login, hu, hv]

/-- C3 witness: an unknown email is rejected with the 401 outcome. -/
theorem login_unknown_or_mismatch_unauthorized_witness :
    Api.login exDB "nobody@x" "pa" 0 =
      Except.error ⟨401, "Incorrect email or password"⟩ :=
  login_unknown_or_mismatch_unauthorized exDB "nobody@x" "pa" 0 (Or.inl (by decide))

/-! ### C10 -/

/-- C10: listing products by category returns 404 exactly when the filtered
result set is empty — so a valid category with zero products and a nonexistent
category are indistinguishable — and a successful response is never the empty
list (it is exactly the nonempty filtered list). -/
theorem list_by_category_empty_is_not_found (db : DB) (cid : Nat) :
    (Api.list_products_by_category db cid =
        Except.error ⟨404, "No products found for this category"⟩ ↔
      Crud.get_products_by_category db cid = []) ∧
    ∀ l, Api.list_products_by_category db cid = Except.ok l →
      l ≠ [] ∧ l = Crud.get_products_by_category db cid := by
  unfold Api.list_products_by_category
  cases h : Crud.get_products_by_category db cid with
  | nil => simp
  | cons a t => simp

end ECom

namespace ECom

/-! ### C4 -/

/-- C4: order creation from a missing cart fails with 404 "Cart not found",
and from an existing cart with zero items with 400 "Cart is empty"; in both
cases the returned state is exactly the initial database — no order, no stock
change, no cart change. -/
theorem create_order_no_cart_or_empty_fails (u : User) (db : DB) :
    (Crud.get_cart db u.id = none →
      Api.create_order_from_cart u db = (Except.error ⟨404, "Cart not found"⟩, db)) ∧
    ∀ cart, Crud.get_cart db u.id = some cart →
      db.cartItems.filter (fun ci => ci.cart_id == cart.id) = [] →
      Api.create_order_from_cart u db = (Except.error ⟨400, "Cart is empty"⟩, db) := by
  constructor
  · intro h
    simp only [Api.create_order_from_cart, Crud.create_order_from_cart_for_user, h]
    rfl
  · intro cart hc hemp
    simp only [Api.create_order_from_cart, Crud.create_order_from_cart_for_user, hc, hemp]
    rfl

/-! ### C7 -/

/-- Number of carts a user owns in a database state. -/
def cartsFor (db : DB) (uid : Nat) : Nat :=
  (db.carts.filter (fun c => c.user_id == uid)).length

/-- C7: `GET /cart/` is idempotent.  The returned cart belongs to the caller,
a second call returns the very same cart and state, and the user's cart count
after the call is 1 when there was none and unchanged otherwise — so no second
cart is ever created for the same user. -/
theorem get_cart_idempotent_unique (u : User) (db : DB) :
    Api.get_cart u (Api.get_cart u db).2 = Api.get_cart u db ∧
    (Api.get_cart u db).1.user_id = u.id ∧
    cartsFor (Api.get_cart u db).2 u.id =
      (if cartsFor db u.id = 0 then 1 else cartsFor db u.id) := by
  cases h : List.find? (fun c : Cart => c.user_id == u.id) db.carts with
  | some c =>
    have hmem : c ∈ db.carts := List.mem_of_find?_eq_some h
    have hp := List.find?_some h
    have hcnt : cartsFor db u.id ≠ 0 := by
      have hc : c ∈ db.carts.filter (fun x => x.user_id == u.id) :=
        List.mem_filter.mpr ⟨hmem, hp⟩
      intro hzero
      rw [cartsFor, List.length_eq_zero] at hzero
      rw [hzero] at hc
      exact (List.not_mem_nil c) hc
    refine ⟨?_, ?_, ?_⟩
    · simp [Api.get_cart, Crud.get_cart, h]
    · simp only [Api.get_cart, Crud.get_cart, h]
      simpa using hp
    · rw [if_neg hcnt]
      simp only [Api.get_cart, Crud.get_cart, h]
  | none =>
    have hfilter : db.carts.filter (fun c => c.user_id == u.id) = [] :=
      List.filter_eq_nil_iff.mpr (List.find?_eq_none.mp h)
    have hzero : cartsFor db u.id = 0 := by
      rw [cartsFor, hfilter]; rfl
    refine ⟨?_, ?_, ?_⟩
    · simp only [Api.get_cart, Crud.get_cart, Crud.create_cart, h]
      rw [List.find?_append, h]
      simp
    · simp [Api.get_cart, Crud.get_cart, Crud.create_cart, h]
    · rw [if_pos hzero]
      simp only [Api.get_cart, Crud.get_cart, Crud.create_cart, h, cartsFor]
      rw [List.filter_append, hfilter]
      simp

end ECom

namespace ECom

/-! ### C8 -/

/-- C8: every successful login found a user under the given email, and the
issued token embeds exactly that user's id, email and role, with expiry 60
minutes after the issuance instant `now` (time measured in minutes). -/
theorem login_token_payload_and_expiry (db : DB) (email pw : String) (now : Nat)
    (tok : Token) (h : Api.login db email pw now = Except.ok tok) :
    ∃ u, Crud.get_user_by_email db email = some u ∧
      tok = ⟨⟨u.id, u.email, u.role, now + 60⟩, "bearer"⟩ := by
  unfold Api.login at h
  cases hu : Crud.get_user_by_email db email with
  | none =>
    rw [hu] at h
    exact Except.noConfusion h
  | some u =>
    rw [hu] at h
    refine ⟨u, rfl, ?_⟩
    simp only at h
    split at h
    · injection h with h2
      rw [← h2]
      rfl
    · exact Except.noConfusion h

/-- C8 witness: logging in as user A at time 100 yields the token with user A's
id, email, role and expiry 160. -/
theorem login_token_payload_and_expiry_witness :
    ∃ u, Crud.get_user_by_email exDB "a@x" = some u ∧
      (⟨⟨1, "a@x", "customer", 160⟩, "bearer"⟩ : Token) =
        ⟨⟨u.id, u.email, u.role, 100 + 60⟩, "bearer"⟩ :=
  login_token_payload_and_expiry exDB "a@x" "pa" 100
    ⟨⟨1, "a@x", "customer", 160⟩, "bearer"⟩ (by decide)

/-! ### C9 -/

/-- C9: an admin role-change on an existing user fails with 400 "Invalid role"
exactly when the requested role is not customer/seller/admin; a valid role is
applied to the target user; and from any state whose users all have valid
roles, every user's role after the request is still in the set. -/
theorem admin_role_change_keeps_roles_valid (db : DB) (uid : Nat)
    (upd : Crud.UserUpdate) (u : User)
    (hu : Crud.get_user db uid = some u)
    (hinv : ∀ y ∈ db.users, y.role ∈ (["customer", "seller", "admin"] : List String)) :
    ((Api.admin_update_user_role db uid upd).1 = Except.error ⟨400, "Invalid role"⟩ ↔
      upd.role ∉ (["customer", "seller", "admin"] : List String)) ∧
    (upd.role ∈ (["customer", "seller", "admin"] : List String) →
      (Api.admin_update_user_role db uid upd).1 = Except.ok { u with role := upd.role }) ∧
    ∀ x ∈ (Api.admin_update_user_role db uid upd).2.users,
      x.role ∈ (["customer", "seller", "admin"] : List String) := by
  by_cases hr : upd.role ∈ (["customer", "seller", "admin"] : List String)
  · have hres : Api.admin_update_user_role db uid upd =
        (Except.ok { u with role := upd.role }, (Crud.update_user db u upd).2) := by
      simp [Api.admin_update_user_role, hu, hr, Crud.update_user]
    refine ⟨?_, fun _ => by rw [hres], ?_⟩
    · rw [hres]
      simp [hr]
    · rw [hres]
      intro x hx
      simp only [Crud.update_user] at hx
      rcases List.mem_map.mp hx with ⟨y, hy, hxy⟩
      by_cases hid : (y.id == u.id) = true
      · rw [← hxy, if_pos hid]
        exact hr
      · rw [← hxy, if_neg hid]
        exact hinv y hy
  · have hres : Api.admin_update_user_role db uid upd =
        (Except.error ⟨400, "Invalid role"⟩, db) := by
      simp [Api.admin_update_user_role, hu, hr]
    refine ⟨?_, fun hmem => absurd hmem hr, ?_⟩
    · rw [hres]
      simp [hr]
    · rw [hres]
      exact hinv

/-- C9 witness: changing user A's role to seller on the fixture succeeds and
returns user A with the seller role. -/
theorem admin_role_change_keeps_roles_valid_witness :
    (Api.admin_update_user_role exDB 1 ⟨"seller"⟩).1 =
      Except.ok { exUserA with role := "seller" } :=
  (admin_role_change_keeps_roles_valid exDB 1 ⟨"seller"⟩ exUserA
    (by decide) (by decide)).2.1 (by decide)

end ECom

namespace ECom

/-! ### C5 -/

/-- Auxiliary for C5: with nonnegative stock, positive stored quantities and a
requested quantity above stock, `add_cart_item` fails with the
InsufficientStock message on both the new-row and the increment paths. -/
theorem add_cart_item_insufficient (db : DB) (cart_id : Nat)
    (item : Crud.CartItemBase) (p : Product)
    (hp : db.products.find? (fun q => q.id == item.product_id) = some p)
    (hstock : 0 ≤ p.stock) (hq : p.stock < item.quantity)
    (hpos : ∀ ci ∈ db.cartItems, 0 < ci.quantity) :
    Crud.add_cart_item db cart_id item = Except.error "Insufficient stock" := by
  have hqpos : ¬ item.quantity ≤ 0 := by omega
  simp only [Crud.add_cart_item, hp]
  rw [if_neg hqpos]
  cases hf : db.cartItems.find?
      (fun ci => ci.cart_id == cart_id && ci.product_id == item.product_id) with
  | some ci =>
    have hcq : 0 < ci.quantity := hpos ci (List.mem_of_find?_eq_some hf)
    simp only
    rw [if_pos (by omega : p.stock < ci.quantity + item.quantity)]
  | none =>
    simp only
    rw [if_pos hq]

/-- C5: an add-to-cart request whose quantity exceeds the product's available
stock fails with InsufficientStock, surfaced as HTTP 400, and the cart items
table is exactly what it was — no row added, no quantity modified.  The
hypotheses are the store invariants: the product exists, stock is
nonnegative, and stored cart quantities are positive. -/
theorem add_item_to_cart_insufficient_stock (u : User) (db : DB)
    (item : Crud.CartItemBase) (p : Product)
    (hp : db.products.find? (fun q => q.id == item.product_id) = some p)
    (hstock : 0 ≤ p.stock) (hq : p.stock < item.quantity)
    (hpos : ∀ ci ∈ db.cartItems, 0 < ci.quantity) :
    (Api.add_item_to_cart u db item).1 = Except.error ⟨400, "Insufficient stock"⟩ ∧
    (Api.add_item_to_cart u db item).2.cartItems = db.cartItems := by
  have hcl : Api.classifyCartError "Insufficient stock" =
      ⟨400, "Insufficient stock"⟩ := by decide
  cases hg : Crud.get_cart db u.id with
  | some c =>
    have hadd := add_cart_item_insufficient db c.id item p hp hstock hq hpos
    simp [Api.add_item_to_cart, hg, hadd, hcl]
  | none =>
    have hadd := add_cart_item_insufficient
        { db with carts := db.carts ++ [⟨db.nextId, u.id⟩], nextId := db.nextId + 1 }
        db.nextId item p hp hstock hq hpos
    simp [Api.add_item_to_cart, hg, Crud.create_cart, hadd, hcl]

/-- C5 witness: user B asks for 9 units of product 30 (stock 5) and gets the
400 InsufficientStock outcome with the cart items unchanged. -/
theorem add_item_to_cart_insufficient_stock_witness :
    (Api.add_item_to_cart exUserB exDB ⟨30, 9⟩).1 =
      Except.error ⟨400, "Insufficient stock"⟩ ∧
    (Api.add_item_to_cart exUserB exDB ⟨30, 9⟩).2.cartItems = exDB.cartItems :=
  add_item_to_cart_insufficient_stock exUserB exDB ⟨30, 9⟩ exProduct
    (by decide) (by decide) (by decide) (by decide)

/-! ### C6 -/

/-- C6: seller product update and delete collapse "does not exist" and "not
the owner" into the single 404 outcome "Product not found or not authorized":
for a seller-role requester either operation returns that error exactly when
the product is missing or owned by someone else, and an admin-role requester
bypasses the ownership restriction — both operations succeed for the admin
whenever the product exists. -/
theorem seller_mutation_collapsed_not_found (seller adm : User) (db : DB)
    (pid : Nat) (upd : Crud.ProductBase)
    (hs : seller.role = "seller") (ha : adm.role = "admin") :
    ((Api.seller_update_product seller db pid upd).1 =
        Except.error ⟨404, "Product not found or not authorized"⟩ ↔
      db.products.find? (fun q => q.id == pid) = none ∨
        ∃ p, db.products.find? (fun q => q.id == pid) = some p ∧
          p.seller_id ≠ some seller.id) ∧
    ((Api.seller_delete_product seller db pid).1 =
        Except.error ⟨404, "Product not found or not authorized"⟩ ↔
      db.products.find? (fun q => q.id == pid) = none ∨
        ∃ p, db.products.find? (fun q => q.id == pid) = some p ∧
          p.seller_id ≠ some seller.id) ∧
    ∀ p, db.products.find? (fun q => q.id == pid) = some p →
      (Api.seller_update_product adm db pid upd).1 =
        Except.ok { p with name := upd.name, price := upd.price,
                            stock := upd.stock, category_id := upd.category_id } ∧
      (Api.seller_delete_product adm db pid).1 =
        Except.ok "Product deleted successfully" := by
  have hsadm : (seller.role == "admin") = false := by
    rw [hs]; rfl
  have hssel : (seller.role == "seller") = true := by
    rw [hs]; rfl
  have haadm : (adm.role == "admin") = true := by
    rw [ha]; rfl
  have hasel : (adm.role == "seller") = false := by
    rw [ha]; rfl
  refine ⟨?_, ?_, ?_⟩
  · cases hf : db.products.find? (fun q => q.id == pid) with
    | none =>
      simp [Api.seller_update_product, Crud.update_product, hf]
    | some p =>
      simp only [Api.seller_update_product, Crud.update_product, hssel, if_true, hf]
      by_cases hown : p.seller_id = some seller.id
      · simp [hown]
      · have : (p.seller_id == some seller.id) = false := by
          simp [hown]
        simp [this, hown]
  · cases hf : db.products.find? (fun q => q.id == pid) with
    | none =>
      simp [Api.seller_delete_product, Crud.delete_product, hf]
    | some p =>
      simp only [Api.seller_delete_product, Crud.delete_product, hf, hsadm]
      by_cases hown : p.seller_id = some seller.id
      · simp [hown]
      · have : (p.seller_id == some seller.id) = false := by
          simp [hown]
        simp [this, hown]
  · intro p hf
    constructor
    · simp [Api.seller_update_product, Crud.update_product, hf, hasel]
    · simp [Api.seller_delete_product, Crud.delete_product, hf, haadm]

/-- C6 witness: for the seller fixture, updating product 99 (absent) yields
the collapsed 404 outcome. -/
theorem seller_mutation_collapsed_not_found_witness :
    (Api.seller_update_product exSeller exDB 99 ⟨"w", 1, 1, 7⟩).1 =
      Except.error ⟨404, "Product not found or not authorized"⟩ :=
  (seller_mutation_collapsed_not_found exSeller exAdmin exDB 99 ⟨"w", 1, 1, 7⟩
    rfl rfl).1.mpr (Or.inl (by decide))

end ECom
